import Mathlib

/-!
Shallow embedding of `src/predict.py` (InflowBackend): a command-line script
that loads a pickled model, builds a single-row feature record from two
positional arguments (a ticker string and a start date string), and prints
the model's prediction as JSON, translating failures into a single-key
JSON error object on stderr with exit code 1.

External effects (library availability, filesystem, the pickled model's
`predict` method, Python's per-process randomized string hash, the text of
library exception messages) are parameters of an `Env` record; the script's
own control flow, messages and derived values are embedded faithfully.
-/

namespace Predict

/-- Calendar date as year, month and day, matching the value parsed by
`pd.to_datetime` from a date-only string. -/
structure CivilDate where
  year : Int
  month : Nat
  day : Nat
deriving DecidableEq, Repr

/-- Day number of a civil date in the proleptic Gregorian calendar, with
1970-01-01 mapping to 0: the standard era-based civil-from-days inverse, the
same date-to-day mapping pandas applies when it converts a parsed date to a
`datetime64` value. -/
def daysFromCivil (dt : CivilDate) : Int :=
  let y : Int := if dt.month ≤ 2 then dt.year - 1 else dt.year
  let era : Int := Int.fdiv y 400
  let yoe : Int := y - era * 400
  let mp : Nat := if 2 < dt.month then dt.month - 3 else dt.month + 9
  let doy : Int := ((153 * mp + 2) / 5 + dt.day - 1 : Nat)
  let doe : Int := yoe * 365 + Int.fdiv yoe 4 - Int.fdiv yoe 100 + doy
  era * 146097 + doe - 719468

/-- Epoch date `1970-01-01`, the fixed `pd.Timestamp("1970-01-01")` the
script subtracts from the parsed start date. -/
def epochDate : CivilDate := ⟨1970, 1, 1⟩

/-- Nanoseconds per day, the value of `pd.Timedelta("1D")`. -/
def nsPerDay : Int := 86400000000000

/-- Nanosecond value of the pandas `Timestamp` at midnight of a civil date
(`pd.to_datetime` of a date-only string yields midnight). -/
def timestampNs (dt : CivilDate) : Int := nsPerDay * daysFromCivil dt

/-- Embeds line 36 of `predict.py`:
`start_date_numeric = (pd.to_datetime(start_date) - pd.Timestamp("1970-01-01")) // pd.Timedelta("1D")`,
a floor division of the nanosecond difference by one day. -/
def start_date_numeric (dt : CivilDate) : Int :=
  Int.fdiv (timestampNs dt - timestampNs epochDate) nsPerDay

/-- Integer day offset of a date from the epoch 1970-01-01, the
specification-side description of `start_date_numeric` ("integer day offset
from a fixed epoch"), to be compared with the code-side floor division. -/
def dayOffsetFromEpoch (dt : CivilDate) : Int :=
  daysFromCivil dt - daysFromCivil epochDate

/-- Leap-year test of the Gregorian calendar. -/
def isLeap (y : Int) : Bool :=
  y % 4 == 0 && (y % 100 != 0 || y % 400 == 0)

/-- Number of days in a month (0 for an invalid month number). -/
def daysInMonth (y : Int) (m : Nat) : Nat :=
  match m with
  | 1 => 31
  | 2 => if isLeap y then 29 else 28
  | 3 => 31
  | 4 => 30
  | 5 => 31
  | 6 => 30
  | 7 => 31
  | 8 => 31
  | 9 => 30
  | 10 => 31
  | 11 => 30
  | 12 => 31
  | _ => 0

/-- Splits a character list on the dash separator of an ISO date string. -/
def splitOnDash : List Char → List (List Char)
  | [] => [[]]
  | c :: rest =>
    let r := splitOnDash rest
    if c = '-' then [] :: r
    else
      match r with
      | [] => [[c]]
      | h :: t => (c :: h) :: t

/-- Reads a nonempty all-digit character list as a natural number. -/
def parseNatDigits (cs : List Char) : Option Nat :=
  cs.foldl
    (fun acc c =>
      match acc with
      | none => none
      | some n => if c.isDigit then some (10 * n + (c.toNat - 48)) else none)
    (if cs.isEmpty then none else some 0)

/-- Embeds the date-parsing step `pd.to_datetime(start_date)` on
dash-separated year-month-day strings: the components must be digits, the
month and day must be in calendar range, and the resulting midnight
timestamp must fit in the signed 64-bit nanosecond range of a pandas
`Timestamp` (day numbers -106751 to 106751). A string pandas cannot parse
raises, embedded here as `none`. -/
def parseDate (s : String) : Option CivilDate :=
  match splitOnDash s.toList with
  | [ys, ms, ds] =>
    match parseNatDigits ys, parseNatDigits ms, parseNatDigits ds with
    | some y, some m, some d =>
      if 1 ≤ m ∧ m ≤ 12 ∧ 1 ≤ d ∧ d ≤ daysInMonth (y : Int) m then
        let dt : CivilDate := ⟨(y : Int), m, d⟩
        if -106751 ≤ daysFromCivil dt ∧ daysFromCivil dt ≤ 106751 then some dt
        else none
      else none
    | _, _, _ => none
  | _ => none

/-- Embeds line 33 of `predict.py`:
`ticker_numeric = abs(hash(ticker)) % (10**8)`, applied to the integer
returned by Python's string hash. -/
def ticker_numeric (h : Int) : Nat := h.natAbs % 10 ^ 8

/-- Embeds the feature dictionary of lines 40-52 of `predict.py` as an
ordered field-name/value list: the single row of the DataFrame
`input_data`. -/
def features (tickerNum : Int) (startDateNum : Int) : List (String × Int) :=
  [("ticker", tickerNum),
   ("start_date", startDateNum),
   ("feature_1", 0),
   ("feature_2", 0),
   ("feature_3", 0),
   ("feature_4", 0),
   ("feature_5", 0),
   ("feature_6", 0),
   ("feature_7", 0),
   ("feature_8", 0)]

/-- Successful output record: the JSON object printed to stdout on line 61,
`{'ticker': ticker, 'start_date': start_date, 'prediction': prediction.tolist()}`.
Prediction values are modelled as integers; only their list shape and
pass-through of the two argument strings matter to the script. -/
structure SuccessOut where
  ticker : String
  start_date : String
  prediction : List Int
deriving DecidableEq, Repr

/-- What the process writes to stderr when it fails: either the script's own
single-key JSON object (the `json.dumps` with an error key at lines 11, 19, 55
and 63), or the Python interpreter's traceback for an exception the script
never catches. -/
inductive ErrOut where
  | errorJson (msg : String)
  | traceback (msg : String)
deriving DecidableEq, Repr

/-- Observable result of one process invocation: exit code, the success
object printed to stdout (if any), the stderr output (if any), and whether
`model.predict` was invoked. -/
structure Outcome where
  exitCode : Nat
  stdout : Option SuccessOut
  stderr : Option ErrOut
  modelInvoked : Bool
deriving DecidableEq, Repr

/-- External world of one invocation: whether `import xgboost` succeeds,
whether the model file exists, whether `pickle.load` succeeds (with the
exception text of its traceback when it does not), the directory of the
script (`os.path.dirname(__file__)`), Python's per-process string hash, the
text of the pandas parse exception, and the loaded model's `predict` method
(which either returns a prediction list or raises with a message). -/
structure Env where
  xgboostOk : Bool
  modelFileExists : Bool
  unpickleOk : Bool
  unpickleErrText : String
  scriptDir : String
  hash : String → Int
  parseErrText : String → String
  predict : List (String × Int) → Except String (List Int)

/-- Embeds `os.path.join` for a single component. -/
def osPathJoin (a b : String) : String :=
  if a = "" then b
  else if a.endsWith "/" then a ++ b
  else a ++ "/" ++ b

/-- Embeds line 15 of `predict.py`:
`model_path = os.path.join(os.path.dirname(__file__), 'Model', 'xgb_model.pkl')`. -/
def model_path (dir : String) : String :=
  osPathJoin (osPathJoin dir "Model") "xgb_model.pkl"

/-- Error message of the missing-dependency branch (line 11). -/
def xgboostMissingMsg : String :=
  "Required module xgboost is not installed. Please install it using \"pip install xgboost\"."

/-- Error message of the missing-model branch (line 19). -/
def modelNotFoundMsg (dir : String) : String :=
  "Model file not found at " ++ model_path dir

/-- Message text of the uncaught IndexError raised by `sys.argv[1]` or
`sys.argv[2]` when the argument is absent. -/
def indexErrorText : String := "IndexError: list index out of range"

/-- Embeds the whole linear script `predict.py` as a function from the
environment and `sys.argv` (index 0 is the script name, indexes 1 and 2 the
two user arguments) to the observable outcome. Branches in source order:
xgboost import check, model-file existence check, `pickle.load` (uncaught on
failure), `sys.argv` access (uncaught IndexError when absent), the
preprocessing try/except, and the prediction try/except. -/
def run (env : Env) (argv : List String) : Outcome :=
  match env.xgboostOk with
  | false => ⟨1, none, some (.errorJson xgboostMissingMsg), false⟩
  | true =>
    match env.modelFileExists with
    | false => ⟨1, none, some (.errorJson (modelNotFoundMsg env.scriptDir)), false⟩
    | true =>
      match env.unpickleOk with
      | false => ⟨1, none, some (.traceback env.unpickleErrText), false⟩
      | true =>
        match argv[1]? with
        | none => ⟨1, none, some (.traceback indexErrorText), false⟩
        | some ticker =>
          match argv[2]? with
          | none => ⟨1, none, some (.traceback indexErrorText), false⟩
          | some start_date =>
            let tickerNum : Int := ticker_numeric (env.hash ticker)
            match parseDate start_date with
            | none =>
              ⟨1, none,
               some (.errorJson
                 ("Failed to preprocess inputs: " ++ env.parseErrText start_date)),
               false⟩
            | some dt =>
              let input_data := features tickerNum (start_date_numeric dt)
              match env.predict input_data with
              | .error e => ⟨1, none, some (.errorJson e), true⟩
              | .ok prediction =>
                ⟨0, some ⟨ticker, start_date, prediction⟩, none, true⟩

/-- Decides whether an outcome is the success shape of the spec: exit code 0,
a JSON document on stdout, nothing on stderr. -/
def success_outcome (o : Outcome) : Bool :=
  o.exitCode == 0 && o.stdout.isSome && o.stderr.isNone

/-- Decides whether stderr carries the script's own single-key JSON error
object (as opposed to nothing or an interpreter traceback). -/
def stderrHasErrorJson (o : Outcome) : Bool :=
  match o.stderr with
  | some (.errorJson _) => true
  | _ => false

/-- Decides whether stderr carries an interpreter traceback from an uncaught
exception. -/
def stderrHasTraceback (o : Outcome) : Bool :=
  match o.stderr with
  | some (.traceback _) => true
  | _ => false

/-- Decides whether an outcome is the error shape of the spec: exit code 1,
nothing on stdout, a single-key JSON error object on stderr. -/
def error_json_outcome (o : Outcome) : Bool :=
  o.exitCode == 1 && o.stdout.isNone && stderrHasErrorJson o

/-- Decides the dichotomy of spec section 8: the outcome is the success
shape or the error shape, never both and never neither. -/
def c1_dichotomy (o : Outcome) : Bool :=
  (success_outcome o || error_json_outcome o) &&
    !(success_outcome o && error_json_outcome o)

/-- A fully healthy environment with concrete hash and model functions, for
concrete evaluations: every flag true, hash constantly 7, the model returns
the feature row's values as the prediction. -/
def envOk : Env where
  xgboostOk := true
  modelFileExists := true
  unpickleOk := true
  unpickleErrText := "_pickle.UnpicklingError: invalid load key"
  scriptDir := "/app/src"
  hash := fun _ => 7
  parseErrText := fun s => "Unknown datetime string format, unable to parse: " ++ s
  predict := fun row => .ok (row.map Prod.snd)

/-- Environment of a second process run identical to `envOk` in every
component, in particular running with the same string-hash seed. -/
def envOkSecondRun : Env where
  xgboostOk := true
  modelFileExists := true
  unpickleOk := true
  unpickleErrText := "_pickle.UnpicklingError: invalid load key"
  scriptDir := "/app/src"
  hash := fun _ => 7
  parseErrText := fun s => "Unknown datetime string format, unable to parse: " ++ s
  predict := fun row => .ok (row.map Prod.snd)

/-- Environment in which the model file is absent. -/
def envNoModel : Env := { envOk with modelFileExists := false }

/-- Environment in which the model file exists but `pickle.load` raises. -/
def envNoPickle : Env := { envOk with unpickleOk := false }

/-- Environment of a process run whose randomized string hash maps every
string to 0; identical to `envOk` in every other component. -/
def envHashA : Env := { envOk with hash := fun _ => 0 }

/-- Environment of a process run whose randomized string hash maps every
string to 1; identical to `envOk` (and `envHashA`) in every other
component, the same model file in particular. -/
def envHashB : Env := { envOk with hash := fun _ => 1 }

example : daysFromCivil epochDate = 0 := by decide
example : daysFromCivil ⟨1970, 1, 2⟩ = 1 := by decide
example : daysFromCivil ⟨2023, 1, 1⟩ = 19358 := by decide
example : daysFromCivil ⟨2000, 3, 1⟩ = 11017 := by decide
example : parseDate "1970-01-02" = some ⟨1970, 1, 2⟩ := by decide
example : parseDate "not-a-date" = none := by decide
example : parseDate "2023-01-01" = some ⟨2023, 1, 1⟩ := by decide

example :
    run envOk ["predict.py", "AAPL", "2023-01-01"] =
      ⟨0, some ⟨"AAPL", "2023-01-01", [7, 19358, 0, 0, 0, 0, 0, 0, 0, 0]⟩,
       none, true⟩ := by
  decide

example :
    stderrHasErrorJson (run envOk ["predict.py", "AAPL", "not-a-date"]) = true := by
  decide

/-- C4: for every successfully parsed start date, `start_date_numeric` (the
floor division of the timestamp difference by one day, as computed on line 36)
equals the integer day offset of that date from the epoch 1970-01-01; in
particular, for the input date "1970-01-02" it equals 1. -/
theorem C4_start_date_numeric_is_day_offset :
    (∀ s dt, parseDate s = some dt → start_date_numeric dt = dayOffsetFromEpoch dt) ∧
    (∃ dt, parseDate "1970-01-02" = some dt ∧ start_date_numeric dt = 1) := by
  constructor
  · intro s dt _
    unfold start_date_numeric dayOffsetFromEpoch timestampNs
    rw [← mul_sub]
    exact Int.mul_fdiv_cancel_left _ (by norm_num [nsPerDay])
  · exact ⟨⟨1970, 1, 2⟩, by decide, by decide⟩

/-- Witness for C4 at the concrete boundary date "1970-01-02". -/
theorem C4_witness :
    parseDate "1970-01-02" = some ⟨1970, 1, 2⟩ ∧
    start_date_numeric ⟨1970, 1, 2⟩ = dayOffsetFromEpoch ⟨1970, 1, 2⟩ ∧
    dayOffsetFromEpoch ⟨1970, 1, 2⟩ = 1 :=
  ⟨by decide,
   C4_start_date_numeric_is_day_offset.1 "1970-01-02" ⟨1970, 1, 2⟩ (by decide),
   by decide⟩

/-- C6: for every hash value, the derived ticker encoding equals the absolute
value of the hash modulo 10^8, hence lies in the range [0, 10^8). -/
theorem C6_ticker_numeric_abs_hash_mod :
    ∀ h : Int, ticker_numeric h = h.natAbs % 10 ^ 8 ∧ ticker_numeric h < 10 ^ 8 := by
  intro h
  exact ⟨rfl, Nat.mod_lt _ (by norm_num)⟩

/-- C7 counterexample: the feature record's first two field names are
`ticker` and `start_date`, not `ticker_numeric` and `start_date_numeric` as
the claim states; shown false at the concrete record `features 0 0`. -/
theorem C7_counterexample :
    ¬ ((features 0 0).map Prod.fst =
      ["ticker_numeric", "start_date_numeric", "feature_1", "feature_2",
       "feature_3", "feature_4", "feature_5", "feature_6", "feature_7",
       "feature_8"]) := by
  decide

/-- C7 amended: every feature record built by the program is a single row
with exactly ten fields named `ticker`, `start_date` and `feature_1` through
`feature_8`, where the eight placeholder fields are the constant 0. -/
theorem C7_features_shape :
    ∀ t s : Int,
      (features t s).map Prod.fst =
        ["ticker", "start_date", "feature_1", "feature_2", "feature_3",
         "feature_4", "feature_5", "feature_6", "feature_7", "feature_8"] ∧
      (features t s).map Prod.snd = [t, s, 0, 0, 0, 0, 0, 0, 0, 0] ∧
      (features t s).length = 10 := by
  intro t s
  exact ⟨rfl, rfl, rfl⟩

/-- C9: when xgboost imports but the model file is absent, the process exits
with code 1 and emits on stderr a JSON error object whose message mentions
the missing path (`Model/xgb_model.pkl` resolved against the script
directory); nothing is printed to stdout. -/
theorem C9_model_file_missing (env : Env) (argv : List String)
    (h1 : env.xgboostOk = true) (h2 : env.modelFileExists = false) :
    (run env argv).exitCode = 1 ∧ (run env argv).stdout = none ∧
    (run env argv).stderr =
      some (ErrOut.errorJson (modelNotFoundMsg env.scriptDir)) ∧
    (∃ pre, modelNotFoundMsg env.scriptDir = pre ++ model_path env.scriptDir) := by
  refine ⟨?_, ?_, ?_, ⟨"Model file not found at ", rfl⟩⟩ <;>
    simp [run, h1, h2]

/-- Witness for C9 in a concrete environment with the model file removed. -/
theorem C9_witness :
    (run envNoModel ["predict.py", "AAPL", "2023-01-01"]).exitCode = 1 ∧
    (run envNoModel ["predict.py", "AAPL", "2023-01-01"]).stdout = none ∧
    (run envNoModel ["predict.py", "AAPL", "2023-01-01"]).stderr =
      some (ErrOut.errorJson (modelNotFoundMsg envNoModel.scriptDir)) ∧
    (∃ pre, modelNotFoundMsg envNoModel.scriptDir =
      pre ++ model_path envNoModel.scriptDir) :=
  C9_model_file_missing envNoModel ["predict.py", "AAPL", "2023-01-01"] rfl rfl

/-- C8: when the model loads but the start-date argument fails to parse, the
process exits with code 1, emits on stderr a JSON error object whose message
starts with "Failed to preprocess inputs: ", writes nothing to stdout, and
never invokes the model. -/
theorem C8_preprocess_failure (env : Env) (argv : List String) (t s : String)
    (h1 : env.xgboostOk = true) (h2 : env.modelFileExists = true)
    (h3 : env.unpickleOk = true)
    (h4 : argv[1]? = some t) (h5 : argv[2]? = some s)
    (h6 : parseDate s = none) :
    (run env argv).exitCode = 1 ∧ (run env argv).stdout = none ∧
    (run env argv).modelInvoked = false ∧
    (∃ rest, (run env argv).stderr =
      some (ErrOut.errorJson ("Failed to preprocess inputs: " ++ rest))) := by
  refine ⟨?_, ?_, ?_, ⟨env.parseErrText s, ?_⟩⟩ <;>
    simp [run, h1, h2, h3, h4, h5, h6]

/-- Witness for C8 at the concrete unparseable date "not-a-date". -/
theorem C8_witness :
    (run envOk ["predict.py", "AAPL", "not-a-date"]).exitCode = 1 ∧
    (run envOk ["predict.py", "AAPL", "not-a-date"]).stdout = none ∧
    (run envOk ["predict.py", "AAPL", "not-a-date"]).modelInvoked = false ∧
    (∃ rest, (run envOk ["predict.py", "AAPL", "not-a-date"]).stderr =
      some (ErrOut.errorJson ("Failed to preprocess inputs: " ++ rest))) :=
  C8_preprocess_failure envOk ["predict.py", "AAPL", "not-a-date"]
    "AAPL" "not-a-date" rfl rfl rfl rfl rfl (by decide)

/-- C5: whenever an invocation exits with code 0, stdout carries exactly one
output object whose ticker and start_date are the second and third entries of
`sys.argv` verbatim and whose prediction is a list; stderr is empty. -/
theorem C5_success_output (env : Env) (argv : List String)
    (h : (run env argv).exitCode = 0) :
    ∃ t s p, argv[1]? = some t ∧ argv[2]? = some s ∧
      (run env argv).stdout = some ⟨t, s, p⟩ ∧ (run env argv).stderr = none := by
  cases hx : env.xgboostOk with
  | false => simp [run, hx] at h
  | true =>
  cases hm : env.modelFileExists with
  | false => simp [run, hx, hm] at h
  | true =>
  cases hu : env.unpickleOk with
  | false => simp [run, hx, hm, hu] at h
  | true =>
  cases ha : argv[1]? with
  | none => simp [run, hx, hm, hu, ha] at h
  | some t =>
  cases hb : argv[2]? with
  | none => simp [run, hx, hm, hu, ha, hb] at h
  | some s =>
  cases hp : parseDate s with
  | none => simp [run, hx, hm, hu, ha, hb, hp] at h
  | some dt =>
  cases hq : env.predict
      (features (ticker_numeric (env.hash t)) (start_date_numeric dt)) with
  | error e => simp [run, hx, hm, hu, ha, hb, hp, hq] at h
  | ok p =>
    exact ⟨t, s, p, rfl, rfl,
      by simp [run, hx, hm, hu, ha, hb, hp, hq],
      by simp [run, hx, hm, hu, ha, hb, hp, hq]⟩

/-- Witness for C5 at arguments "AAPL" and "2023-01-01" in a healthy
environment: the output carries both strings verbatim. -/
theorem C5_witness :
    (∃ t s p,
      (["predict.py", "AAPL", "2023-01-01"] : List String)[1]? = some t ∧
      (["predict.py", "AAPL", "2023-01-01"] : List String)[2]? = some s ∧
      (run envOk ["predict.py", "AAPL", "2023-01-01"]).stdout = some ⟨t, s, p⟩ ∧
      (run envOk ["predict.py", "AAPL", "2023-01-01"]).stderr = none) ∧
    (run envOk ["predict.py", "AAPL", "2023-01-01"]).stdout =
      some ⟨"AAPL", "2023-01-01", [7, 19358, 0, 0, 0, 0, 0, 0, 0, 0]⟩ :=
  ⟨C5_success_output envOk ["predict.py", "AAPL", "2023-01-01"] (by decide),
   by decide⟩

/-- C1 counterexample: with two arguments supplied, when the model file
exists but fails to deserialize, the uncaught `pickle.load` exception makes
the process exit 1 with an interpreter traceback on stderr, which is neither
the success shape nor a single-key JSON error object: the claimed dichotomy
fails at this concrete invocation. -/
theorem C1_counterexample :
    c1_dichotomy (run envNoPickle ["predict.py", "AAPL", "2023-01-01"]) = false ∧
    (run envNoPickle ["predict.py", "AAPL", "2023-01-01"]).exitCode = 1 ∧
    stderrHasTraceback (run envNoPickle ["predict.py", "AAPL", "2023-01-01"]) = true := by
  decide

/-- C1 amended: for every invocation with two command-line arguments
supplied, provided `pickle.load` succeeds (or the process exits earlier at
the dependency or file-existence check), the process either exits 0 with a
JSON document on stdout or exits 1 with a single-key JSON error object on
stderr — never both and never neither. -/
theorem C1_dichotomy_amended (env : Env) (argv : List String)
    (hlen : 3 ≤ argv.length)
    (hflag : env.unpickleOk = true ∨ env.xgboostOk = false ∨
      env.modelFileExists = false) :
    c1_dichotomy (run env argv) = true := by
  cases hx : env.xgboostOk with
  | false =>
    simp [run, hx, c1_dichotomy, success_outcome, error_json_outcome,
      stderrHasErrorJson]
  | true =>
  cases hm : env.modelFileExists with
  | false =>
    simp [run, hx, hm, c1_dichotomy, success_outcome, error_json_outcome,
      stderrHasErrorJson]
  | true =>
  have hu : env.unpickleOk = true := by
    rcases hflag with h | h | h
    · exact h
    · rw [hx] at h; cases h
    · rw [hm] at h; cases h
  match argv, hlen with
  | a :: b :: c :: rest, _ =>
    cases hp : parseDate c with
    | none =>
      simp [run, hx, hm, hu, hp, c1_dichotomy, success_outcome,
        error_json_outcome, stderrHasErrorJson]
    | some dt =>
      cases hq : env.predict
          (features (ticker_numeric (env.hash b)) (start_date_numeric dt)) with
      | error e =>
        simp [run, hx, hm, hu, hp, hq, c1_dichotomy, success_outcome,
          error_json_outcome, stderrHasErrorJson]
      | ok p =>
        simp [run, hx, hm, hu, hp, hq, c1_dichotomy, success_outcome,
          error_json_outcome, stderrHasErrorJson]

/-- Witness for the amended C1 at a concrete healthy invocation. -/
theorem C1_witness :
    c1_dichotomy (run envOk ["predict.py", "AAPL", "2023-01-01"]) = true :=
  C1_dichotomy_amended envOk ["predict.py", "AAPL", "2023-01-01"]
    (by decide) (Or.inl rfl)

/-- C2 counterexample: two process runs against the same model file (the
same `predict` function and filesystem state) with identical arguments
produce different predictions when the per-process randomized string hash
differs, so the program is not a deterministic function of its two arguments
and the model file contents alone. -/
theorem C2_counterexample :
    envHashA.predict = envHashB.predict ∧
    envHashA.xgboostOk = envHashB.xgboostOk ∧
    envHashA.modelFileExists = envHashB.modelFileExists ∧
    envHashA.unpickleOk = envHashB.unpickleOk ∧
    envHashA.scriptDir = envHashB.scriptDir ∧
    run envHashA ["predict.py", "AAPL", "2023-01-01"] ≠
      run envHashB ["predict.py", "AAPL", "2023-01-01"] := by
  exact ⟨rfl, rfl, rfl, rfl, rfl, by decide⟩

/-- C2 amended: the program is deterministic as a function of its arguments,
the loaded model, the environment state and the process's string-hash
function: two runs that agree on every one of those components (in
particular two runs with the same hash seed) yield identical outcomes. -/
theorem C2_deterministic_given_hash (e1 e2 : Env) (argv : List String)
    (hx : e1.xgboostOk = e2.xgboostOk)
    (hm : e1.modelFileExists = e2.modelFileExists)
    (hu : e1.unpickleOk = e2.unpickleOk)
    (ht : e1.unpickleErrText = e2.unpickleErrText)
    (hd : e1.scriptDir = e2.scriptDir)
    (hh : e1.hash = e2.hash)
    (hp : e1.parseErrText = e2.parseErrText)
    (hq : e1.predict = e2.predict) :
    run e1 argv = run e2 argv := by
  cases e1
  cases e2
  dsimp at hx hm hu ht hd hh hp hq
  subst hx hm hu ht hd hh hp hq
  rfl

/-- Witness for the amended C2: two runs sharing every component, the hash
seed included, agree at a concrete invocation. -/
theorem C2_witness :
    run envOk ["predict.py", "AAPL", "2023-01-01"] =
      run envOkSecondRun ["predict.py", "AAPL", "2023-01-01"] :=
  C2_deterministic_given_hash envOk envOkSecondRun
    ["predict.py", "AAPL", "2023-01-01"] rfl rfl rfl rfl rfl rfl rfl rfl

/-- C3 counterexample: when the model file exists but fails to deserialize,
the process does exit with code 1, but stderr carries an interpreter
traceback rather than a structured JSON error object (the `pickle.load`
call on lines 23-24 is outside any try/except), refuting the claim at this
concrete invocation. -/
theorem C3_counterexample :
    (run envNoPickle ["predict.py", "AAPL", "2023-01-01"]).exitCode = 1 ∧
    stderrHasErrorJson (run envNoPickle ["predict.py", "AAPL", "2023-01-01"]) =
      false := by
  decide

/-- C3 amended: if the model file exists but fails to deserialize, the
process terminates with exit code 1 via the uncaught exception, writing the
interpreter traceback (not a JSON error object) to stderr and nothing to
stdout, without invoking the model. -/
theorem C3_unpickle_failure_amended (env : Env) (argv : List String)
    (h1 : env.xgboostOk = true) (h2 : env.modelFileExists = true)
    (h3 : env.unpickleOk = false) :
    run env argv =
      ⟨1, none, some (ErrOut.traceback env.unpickleErrText), false⟩ := by
  simp [run, h1, h2, h3]

/-- Witness for the amended C3 in a concrete environment whose pickle fails
to load. -/
theorem C3_witness :
    run envNoPickle ["predict.py", "AAPL", "2023-01-01"] =
      ⟨1, none, some (ErrOut.traceback envNoPickle.unpickleErrText), false⟩ :=
  C3_unpickle_failure_amended envNoPickle ["predict.py", "AAPL", "2023-01-01"]
    rfl rfl rfl

/-- C10 counterexample: an invocation with fewer than two arguments in which
the model file is absent exits through the script's own JSON error branch
before ever reaching the positional-argument access: it emits an error JSON
object and raises no uncaught exception, refuting the claim as universally
stated. -/
theorem C10_counterexample :
    (["predict.py"] : List String).length < 3 ∧
    stderrHasTraceback (run envNoModel ["predict.py"]) = false ∧
    stderrHasErrorJson (run envNoModel ["predict.py"]) = true := by
  decide

/-- C10 amended: provided the dependency imports and the model file exists
and deserializes, every invocation with fewer than two command-line
arguments terminates via the uncaught IndexError at the positional-argument
access, with the interpreter traceback on stderr, no error JSON of the
script's own, nothing on stdout, and the model never invoked. -/
theorem C10_missing_args_amended (env : Env) (argv : List String)
    (h1 : env.xgboostOk = true) (h2 : env.modelFileExists = true)
    (h3 : env.unpickleOk = true) (hlen : argv.length < 3) :
    run env argv = ⟨1, none, some (ErrOut.traceback indexErrorText), false⟩ := by
  match argv, hlen with
  | [], _ => simp [run, h1, h2, h3]
  | [a], _ => simp [run, h1, h2, h3]
  | [a, b], _ => simp [run, h1, h2, h3]

/-- Witness for the amended C10 at a concrete invocation with no user
arguments. -/
theorem C10_witness :
    run envOk ["predict.py"] =
      ⟨1, none, some (ErrOut.traceback indexErrorText), false⟩ :=
  C10_missing_args_amended envOk ["predict.py"] rfl rfl rfl (by decide)

end Predict
